import Mathlib

/-!
Shallow embedding of the 1intro (1DEX) weighted-pool quoting engine
(`jupiter-core/src/amms/one_intro_calc.rs`, `one_intro_state.rs`,
`one_intro_amm.rs`).

Machine integers are modelled as `Nat` together with explicit range bounds
(`< 2^64`, `< 2^128`) where Rust uses `u64` / `u128`; every `checked_*`
operation is modelled with its explicit failure case.  Fallible Rust code
(`anchor_lang::Result` / `anyhow::Result`) is modelled with `Except`.

The two curve formulas `calc_out_given_in` / `calc_in_given_out` compute with
IEEE-754 `f64` (including `powf`); their floating-point semantics are outside
this integer embedding, so the orchestrator and quote functions take them as
explicit function parameters of type `CurveFn` (same argument list and result
type as the source functions).  All integer arithmetic around them follows the
source exactly.
-/

namespace OneIntro

/-- `u64::MAX + 1`: values below this bound are representable as `u64`. -/
def U64_MOD : Nat := 2 ^ 64

/-- `u128::MAX + 1`: values below this bound are representable as `u128`. -/
def U128_MOD : Nat := 2 ^ 128

/-- `PONE = 1_000_000_000` (`one_intro_calc.rs` line 4): fixed-point scale. -/
def PONE : Nat := 1000000000

/-- `MAX_IN_RATIO = PONE / 2` from `one_intro_calc.rs` line 6 (name transcribed
as lower camel case). -/
def maxInRatio : Nat := PONE / 2

/-- `MAX_OUT_RATIO = PONE / 2` from `one_intro_calc.rs` line 7 (name transcribed
as lower camel case). -/
def maxOutRatio : Nat := PONE / 2

/-- Error outcomes of the embedded operations.  `calculationFailure` and
`validationLiquidityTooBigTokenOutAmount` are the two declared variants of
`ErrorCode` in `one_intro_calc.rs`; the `…Underflow` constructors stand for the
`anyhow` context errors `"token_in_amount underflow"`, `"PONE underflow"` and
`"adjusted_token_in_amount underflow"` of `one_intro_amm.rs`;
`poolStateNotFound` stands for the `"Pool state not found."` context error of
`OneIntroAmm::update`.  (`one_intro_amm.rs` lines 79 and 117 also name variants
`ValidationTooSmallTokenInAmount` / `ValidationTooSmallTokenOutAmount`, which
are not declared in `ErrorCode`; they are included here so that statements
about them can be made.) -/
inductive AmmError where
  | calculationFailure
  | validationLiquidityTooBigTokenOutAmount
  | validationTooSmallTokenInAmount
  | validationTooSmallTokenOutAmount
  | tokenInAmountUnderflow
  | poneUnderflow
  | adjustedTokenInAmountUnderflow
  | poolStateNotFound
  deriving DecidableEq

/-- `u128::checked_mul`: `none` exactly when the product overflows `u128`. -/
def checkedMulU128 (a b : Nat) : Option Nat :=
  if a * b < U128_MOD then some (a * b) else none

/-- `u128::checked_div`: `none` exactly when the divisor is zero. -/
def checkedDivU128 (a b : Nat) : Option Nat :=
  if b = 0 then none else some (a / b)

/-- `u64::checked_sub`: `none` exactly when the subtraction would underflow. -/
def checkedSubU64 (a b : Nat) : Option Nat :=
  if b ≤ a then some (a - b) else none

/-- `u64::try_from` on a `u128` value, mapped to `CalculationFailure` on
failure as in `one_intro_calc.rs` line 29. -/
def u64TryFrom (v : Nat) : Except AmmError Nat :=
  if v < U64_MOD then Except.ok v else Except.error AmmError.calculationFailure

/-- `proportional` (`one_intro_calc.rs` lines 18–30): `amount * numerator /
denominator` in a `u128` intermediate; a zero denominator is a no-op returning
`amount`. -/
def proportional (amount numerator denominator : Nat) : Except AmmError Nat :=
  if denominator = 0 then
    Except.ok amount
  else
    match checkedMulU128 amount numerator with
    | none => Except.error AmmError.calculationFailure
    | some value =>
      match checkedDivU128 value denominator with
      | none => Except.error AmmError.calculationFailure
      | some q => u64TryFrom q

/-- `value_from_shares` (`one_intro_calc.rs` lines 32–34). -/
def value_from_shares (shares total_value total_shares : Nat) : Except AmmError Nat :=
  proportional shares total_value total_shares

/-- The argument/result shape of the two `f64` curve functions
`calc_out_given_in` and `calc_in_given_out` (`one_intro_calc.rs` lines 91–158):
`(token_in_balance, token_in_weight, token_out_balance, token_out_weight,
amount, swap_fee) ↦ result`.  The orchestrator is verified for an arbitrary
function of this shape. -/
def CurveFn : Type := Nat → Nat → Nat → Nat → Nat → Nat → Except AmmError Nat

/-- The gross-up step of `swap_exact_amount_out` (`one_intro_amm.rs` line 213):
`value_from_shares(PONE, temp_token_in_amount, PONE.checked_sub(swap_fee_ratio)
.context("PONE underflow")?)`. -/
def grossUpIn (temp_token_in_amount swap_fee_ratio : Nat) : Except AmmError Nat :=
  match checkedSubU64 PONE swap_fee_ratio with
  | none => Except.error AmmError.poneUnderflow
  | some d => value_from_shares PONE temp_token_in_amount d

/-- `swap_exact_amount_in` (`one_intro_amm.rs` lines 164–192), with the `f64`
curve function `calc_out_given_in` as the parameter `cOut`.  Each `match`
mirrors one `?` of the source. -/
def swap_exact_amount_in (cOut : CurveFn)
    (token_in_balance token_in_weight token_out_balance token_out_weight
      token_in_amount swap_fee_ratio : Nat) :
    Except AmmError (Nat × Nat × Nat × Bool) :=
  match value_from_shares maxInRatio token_in_balance PONE with
  | Except.error e => Except.error e
  | Except.ok max_token_in_amount =>
    match value_from_shares swap_fee_ratio token_in_amount PONE with
    | Except.error e => Except.error e
    | Except.ok swap_fee_amount =>
      match checkedSubU64 token_in_amount swap_fee_amount with
      | none => Except.error AmmError.tokenInAmountUnderflow
      | some adjusted_token_in_amount =>
        match cOut token_in_balance token_in_weight token_out_balance
            token_out_weight adjusted_token_in_amount 0 with
        | Except.error e => Except.error e
        | Except.ok token_out_amount =>
          Except.ok (token_in_amount, token_out_amount, swap_fee_amount,
            decide (token_in_amount > max_token_in_amount))

/-- `swap_exact_amount_out` (`one_intro_amm.rs` lines 194–222), with the `f64`
curve function `calc_in_given_out` as the parameter `cIn`. -/
def swap_exact_amount_out (cIn : CurveFn)
    (token_in_balance token_in_weight token_out_balance token_out_weight
      token_out_amount swap_fee_ratio : Nat) :
    Except AmmError (Nat × Nat × Nat × Bool) :=
  match value_from_shares maxOutRatio token_out_balance PONE with
  | Except.error e => Except.error e
  | Except.ok max_token_out_amount =>
    match cIn token_in_balance token_in_weight token_out_balance
        token_out_weight token_out_amount 0 with
    | Except.error e => Except.error e
    | Except.ok temp_token_in_amount =>
      match grossUpIn temp_token_in_amount swap_fee_ratio with
      | Except.error e => Except.error e
      | Except.ok token_in_amount =>
        match checkedSubU64 token_in_amount temp_token_in_amount with
        | none => Except.error AmmError.adjustedTokenInAmountUnderflow
        | some swap_fee_amount =>
          Except.ok (token_in_amount, token_out_amount, swap_fee_amount,
            decide (token_out_amount > max_token_out_amount))

/-- `Pubkey` (a 32-byte identity) modelled as a `Nat`.  The placeholder
`pubkey!("11111111111111111111111111111111")` of `one_intro_amm.rs` line 61 is
the all-zero 32-byte array, modelled as `0`. -/
def ZERO_PUBKEY : Nat := 0

/-- `TokenRecord` (`one_intro_state.rs` lines 9–14). -/
structure TokenRecord where
  mint_key : Nat
  account_key : Nat
  balance : Nat
  weight : Nat
  deriving DecidableEq

/-- `PoolState` (`one_intro_state.rs` lines 17–33); `pool_token_array` is the
fixed `[TokenRecord; MAX_TOKEN_COUNT]` with `MAX_TOKEN_COUNT = 4`. -/
structure PoolState where
  pool_auth_pda_key : Nat
  pool_auth_pda_bump : Nat
  pool_lp_mint_key : Nat
  pool_lp_virtual_supply : Nat
  pool_token_count : Nat
  pool_token_array : Fin 4 → TokenRecord
  pool_token_total_weight : Nat
  pool_swap_fee_ratio : Nat

/-- The `pool_token_array` as an ordered list (array order `0,1,2,3`). -/
def tokenRecords (s : PoolState) : List TokenRecord :=
  (List.finRange 4).map s.pool_token_array

/-- `OneIntroAmm` (`one_intro_amm.rs` lines 16–20). -/
structure OneIntroAmm where
  key : Nat
  program_id : Nat
  state : PoolState

/-- `OneIntroAmm::get_reserve_mints` (`one_intro_amm.rs` lines 57–63): map
each record to its `mint_key`, then drop the all-zero placeholder identity. -/
def get_reserve_mints (amm : OneIntroAmm) : List Nat :=
  ((tokenRecords amm.state).map TokenRecord.mint_key).filter
    (fun v => ! (v == ZERO_PUBKEY))

/-- Modelled from the spec (§3 invariants, §6): "return the ordered sequence
of active (non-null-identity) leg mint identities"; "a null/placeholder mint
identity (all-zero) marks an inactive leg and must be excluded" — i.e. keep
the records whose mint is not all-zero, in array order, and report their
mints. -/
def specActiveLegMints (amm : OneIntroAmm) : List Nat :=
  ((tokenRecords amm.state).filter
    (fun r => ! (r.mint_key == ZERO_PUBKEY))).map TokenRecord.mint_key

/-- `OneIntroAmm::update` (`one_intro_amm.rs` lines 69–75).  The `AccountMap`
is modelled as a partial map from keys to raw account values of an arbitrary
type `α`, and `PoolState::deserialize` on the account's data as a parameter
`deser` (it lives outside `src`).  The Rust method mutates `self` and returns
`Result<()>`; here it returns the result paired with the (possibly updated)
receiver. -/
def update {α : Type} (deser : α → Except AmmError PoolState)
    (amm : OneIntroAmm) (account_map : Nat → Option α) :
    Except AmmError Unit × OneIntroAmm :=
  match account_map amm.key with
  | none => (Except.error AmmError.poolStateNotFound, amm)
  | some account =>
    match deser account with
    | Except.error e => (Except.error e, amm)
    | Except.ok st => (Except.ok (), { amm with state := st })

/-- `SwapMode` of the `jupiter_amm_interface` used by `quote`. -/
inductive SwapMode where
  | ExactIn
  | ExactOut
  deriving DecidableEq

/-- `QuoteParams` fields read by `OneIntroAmm::quote`. -/
structure QuoteParams where
  amount : Nat
  input_mint : Nat
  output_mint : Nat
  swap_mode : SwapMode
  deriving DecidableEq

/-- `rust_decimal::Decimal::new(num, scale)` as its exact rational value
`num / 10^scale`. -/
def decimalNew (num : ℤ) (scale : Nat) : ℚ :=
  (num : ℚ) / (10 : ℚ) ^ scale

/-- `as i64` applied to a `u64` value (two's-complement reinterpretation). -/
def i64FromU64 (n : Nat) : ℤ :=
  if n % U64_MOD < 2 ^ 63 then ((n % U64_MOD : Nat) : ℤ)
  else ((n % U64_MOD : Nat) : ℤ) - (U64_MOD : ℤ)

/-- The `fee_pct` value constructed at `one_intro_amm.rs` line 125:
`Decimal::new((swap_fee_ratio * 100) as i64, 9)` (the `u64` multiplication
wraps on overflow in release mode). -/
def feePctVal (swap_fee_ratio : Nat) : ℚ :=
  decimalNew (i64FromU64 (swap_fee_ratio * 100 % U64_MOD)) 9

/-- The fields of the `jupiter_amm_interface::Quote` result that
`OneIntroAmm::quote` fills in (the remaining fields come from
`Quote::default()`, kept as the two `Option` fields). -/
structure Quote where
  not_enough_liquidity : Bool
  min_in_amount : Option Nat
  min_out_amount : Option Nat
  in_amount : Nat
  out_amount : Nat
  fee_amount : Nat
  fee_mint : Nat
  fee_pct : ℚ
  deriving DecidableEq

/-- The leg-selection step of `quote` (`one_intro_amm.rs` lines 86–91): the
tuple `(token_in_balance, token_out_balance, token_in_weight,
token_out_weight)` chosen by comparing the requested input mint with leg 0's
mint (any other mint, known or not, selects leg 1 as the input leg). -/
def selectLegs (s : PoolState) (input_mint : Nat) : Nat × Nat × Nat × Nat :=
  let record_0 := s.pool_token_array 0
  let record_1 := s.pool_token_array 1
  if input_mint = (s.pool_token_array 0).mint_key then
    (record_0.balance, record_1.balance, record_0.weight, record_1.weight)
  else
    (record_1.balance, record_0.balance, record_1.weight, record_0.weight)

/-- `OneIntroAmm::quote` (`one_intro_amm.rs` lines 77–129), parametric in the
two `f64` curve functions.

Control-flow note, modelled literally: the checks at lines 78–80
(`if quote_params.amount <= 0 { Err(ValidationTooSmallTokenInAmount.into()) }`)
and lines 116–118 (`if out_amount <= 0 { Err(…TooSmallTokenOutAmount…) }`)
construct an error value but do not `return` it and do not apply `?`, so the
constructed error is discarded and execution falls through; the two `if`
statements therefore have no effect on the result and no reflection in this
definition.  (The two variants they name are also not declared in
`ErrorCode`.) -/
def quote (cOut cIn : CurveFn) (amm : OneIntroAmm) (qp : QuoteParams) :
    Except AmmError Quote :=
  match (match qp.swap_mode with
    | SwapMode.ExactIn =>
      swap_exact_amount_in cOut (selectLegs amm.state qp.input_mint).1
        (selectLegs amm.state qp.input_mint).2.2.1
        (selectLegs amm.state qp.input_mint).2.1
        (selectLegs amm.state qp.input_mint).2.2.2
        qp.amount amm.state.pool_swap_fee_ratio
    | SwapMode.ExactOut =>
      swap_exact_amount_out cIn (selectLegs amm.state qp.input_mint).1
        (selectLegs amm.state qp.input_mint).2.2.1
        (selectLegs amm.state qp.input_mint).2.1
        (selectLegs amm.state qp.input_mint).2.2.2
        qp.amount amm.state.pool_swap_fee_ratio) with
  | Except.error e => Except.error e
  | Except.ok (in_amount, out_amount, fee_amount, not_enough_liquidity) =>
    Except.ok
      { not_enough_liquidity := not_enough_liquidity
        min_in_amount := none
        min_out_amount := none
        in_amount := in_amount
        out_amount := out_amount
        fee_amount := fee_amount
        fee_mint := qp.input_mint
        fee_pct := feePctVal amm.state.pool_swap_fee_ratio }

/-- The mode dispatch inside `quote` (`one_intro_amm.rs` lines 93–114), named
so that facts about `quote` can be stated: `swap_exact_amount_in` or
`swap_exact_amount_out` on the legs selected at lines 86–91. -/
def orchestrate (cOut cIn : CurveFn) (amm : OneIntroAmm) (qp : QuoteParams) :
    Except AmmError (Nat × Nat × Nat × Bool) :=
  match qp.swap_mode with
  | SwapMode.ExactIn =>
    swap_exact_amount_in cOut (selectLegs amm.state qp.input_mint).1
      (selectLegs amm.state qp.input_mint).2.2.1
      (selectLegs amm.state qp.input_mint).2.1
      (selectLegs amm.state qp.input_mint).2.2.2
      qp.amount amm.state.pool_swap_fee_ratio
  | SwapMode.ExactOut =>
    swap_exact_amount_out cIn (selectLegs amm.state qp.input_mint).1
      (selectLegs amm.state qp.input_mint).2.2.1
      (selectLegs amm.state qp.input_mint).2.1
      (selectLegs amm.state qp.input_mint).2.2.2
      qp.amount amm.state.pool_swap_fee_ratio

/-- The `Quote` record that `quote` builds from an orchestrator result tuple
`(in_amount, out_amount, fee_amount, not_enough_liquidity)`, the requested
input mint and the pool's fee ratio. -/
def mkQuote (r : Nat × Nat × Nat × Bool) (input_mint swap_fee_ratio : Nat) :
    Quote where
  not_enough_liquidity := r.2.2.2
  min_in_amount := none
  min_out_amount := none
  in_amount := r.1
  out_amount := r.2.1
  fee_amount := r.2.2.1
  fee_mint := input_mint
  fee_pct := feePctVal swap_fee_ratio

/-- A constant curve function, used to instantiate the `CurveFn` parameter on
concrete inputs. -/
def constCurve (n : Nat) : CurveFn :=
  fun _ _ _ _ _ _ => Except.ok n

/-- A concrete two-leg pool state: leg mints `m0`, `m1` (account keys 11, 12),
both balances `bal`, both weights 1, legs 2 and 3 inactive (all-zero mint),
swap fee ratio `ratio`. -/
def mkPool (m0 m1 bal ratio : Nat) : PoolState where
  pool_auth_pda_key := 7
  pool_auth_pda_bump := 255
  pool_lp_mint_key := 5
  pool_lp_virtual_supply := 0
  pool_token_count := 2
  pool_token_array := fun i =>
    if i = 0 then ⟨m0, 11, bal, 1⟩
    else if i = 1 then ⟨m1, 12, bal, 1⟩
    else ⟨ZERO_PUBKEY, 0, 0, 0⟩
  pool_token_total_weight := 2
  pool_swap_fee_ratio := ratio

/-- A concrete `OneIntroAmm` over `mkPool`. -/
def mkAmm (m0 m1 bal ratio : Nat) : OneIntroAmm where
  key := 99
  program_id := 88
  state := mkPool m0 m1 bal ratio

/-! ### Helper lemmas -/

/-- Two `u64` values multiply without overflowing `u128`. -/
lemma mul_lt_u128 {a n : Nat} (ha : a < U64_MOD) (hn : n < U64_MOD) :
    a * n < U128_MOD := by
  have h := Nat.mul_lt_mul_of_lt_of_le ha (Nat.le_of_lt hn) (by norm_num [U64_MOD])
  calc a * n < U64_MOD * U64_MOD := h
    _ = U128_MOD := by norm_num [U64_MOD, U128_MOD]

/-- `proportional` with a zero denominator is the identity on `amount`. -/
lemma proportional_zero_denom (a n : Nat) : proportional a n 0 = Except.ok a := rfl

/-- `proportional` succeeds with the exact floor quotient when the `u128`
product does not overflow and the quotient fits in `u64`. -/
lemma proportional_ok_of_lt {a n d : Nat} (hd : d ≠ 0) (hmul : a * n < U128_MOD)
    (hfit : a * n / d < U64_MOD) :
    proportional a n d = Except.ok (a * n / d) := by
  simp [proportional, checkedMulU128, checkedDivU128, u64TryFrom, hd, hmul, hfit]

/-- `PONE` is positive. -/
lemma pone_pos : 0 < PONE := by norm_num [PONE]

/-- `PONE` is a `u64` value. -/
lemma pone_lt_u64 : PONE < U64_MOD := by norm_num [PONE, U64_MOD]

/-! ### Claim theorems -/

/-- Claim C3: for `u64` inputs, `proportional` returns the amount unchanged on
a zero denominator, and otherwise returns exactly `⌊amount · numerator /
denominator⌋` (computed in the 128-bit intermediate, which cannot overflow for
`u64` inputs) whenever that value fits in `u64`, failing with
`CalculationFailure` otherwise. -/
theorem proportional_exact (a n d : Nat)
    (ha : a < U64_MOD) (hn : n < U64_MOD) (hd : d < U64_MOD) :
    proportional a n d =
      if d = 0 then Except.ok a
      else if a * n / d < U64_MOD then Except.ok (a * n / d)
      else Except.error AmmError.calculationFailure := by
  by_cases h0 : d = 0
  · subst h0
    simp [proportional]
  · have hmul : a * n < U128_MOD := mul_lt_u128 ha hn
    by_cases hfit : a * n / d < U64_MOD
    · rw [if_neg h0, if_pos hfit, proportional_ok_of_lt h0 hmul hfit]
    · simp [proportional, checkedMulU128, checkedDivU128, u64TryFrom, h0, hmul, hfit]

/-- Witness for C3 at `amount = 6`, `numerator = 7`, `denominator = 4`:
`⌊6·7/4⌋ = 10`. -/
theorem proportional_exact_witness :
    (6 : Nat) < U64_MOD ∧ proportional 6 7 4 = Except.ok 10 := by
  refine ⟨by norm_num [U64_MOD], ?_⟩
  have h := proportional_exact 6 7 4 (by norm_num [U64_MOD]) (by norm_num [U64_MOD])
    (by norm_num [U64_MOD])
  rw [h]
  norm_num [U64_MOD]

/-- Counterexample to claim C4 as stated: at the boundary `swapFeeRatio =
PONE`, the gross-up step does not fail — `PONE.checked_sub(PONE)` yields the
denominator `0`, which `proportional` treats as a no-op returning its first
argument, so the step returns `Ok(PONE)` (here with `preFeeIn = 500`). -/
theorem grossup_boundary_counterexample :
    grossUpIn 500 PONE = Except.ok PONE := rfl

/-- Claim C4 (amended): for every `preFeeIn`, the gross-up step fails (with
the `"PONE underflow"` error) exactly when `swapFeeRatio > PONE`; at the
boundary `swapFeeRatio = PONE` it instead succeeds and returns `PONE`
unchanged, via the zero-denominator no-op of `proportional`. -/
theorem grossup_above_and_at_pone (preFeeIn swap_fee_ratio : Nat)
    (h : PONE < swap_fee_ratio) :
    grossUpIn preFeeIn swap_fee_ratio = Except.error AmmError.poneUnderflow ∧
    grossUpIn preFeeIn PONE = Except.ok PONE := by
  constructor
  · have hnone : checkedSubU64 PONE swap_fee_ratio = none := by
      simp [checkedSubU64]
      omega
    simp [grossUpIn, hnone]
  · rfl

/-- Witness for C4 (amended) at `preFeeIn = 500`, `swapFeeRatio = PONE + 1`. -/
theorem grossup_fails_witness :
    PONE < PONE + 1 ∧
    grossUpIn 500 (PONE + 1) = Except.error AmmError.poneUnderflow := by
  have h := grossup_above_and_at_pone 500 (PONE + 1) (by omega)
  exact ⟨by omega, h.1⟩

/-- Claim C5: in exact-in mode, for `0 ≤ swapFeeRatio < PONE` and any `u64`
requested amount, the fee computation `value_from_shares(swapFeeRatio,
amount, PONE)` succeeds with `⌊swapFeeRatio · amount / PONE⌋ ≤ amount`, so the
`checked_sub` computing the adjusted input cannot underflow. -/
theorem fee_le_amount (amount swap_fee_ratio : Nat)
    (hamt : amount < U64_MOD) (hr : swap_fee_ratio < PONE) :
    value_from_shares swap_fee_ratio amount PONE =
      Except.ok (swap_fee_ratio * amount / PONE) ∧
    swap_fee_ratio * amount / PONE ≤ amount ∧
    checkedSubU64 amount (swap_fee_ratio * amount / PONE) =
      some (amount - swap_fee_ratio * amount / PONE) := by
  have hle : swap_fee_ratio * amount / PONE ≤ amount := by
    have h1 : swap_fee_ratio * amount ≤ PONE * amount :=
      Nat.mul_le_mul_right _ (Nat.le_of_lt hr)
    have h2 : swap_fee_ratio * amount / PONE ≤ PONE * amount / PONE :=
      Nat.div_le_div_right h1
    rwa [Nat.mul_div_cancel_left _ pone_pos] at h2
  have hmul : swap_fee_ratio * amount < U128_MOD :=
    mul_lt_u128 (lt_trans hr pone_lt_u64) hamt
  refine ⟨proportional_ok_of_lt (Nat.pos_iff_ne_zero.mp pone_pos) hmul
    (lt_of_le_of_lt hle hamt), hle, ?_⟩
  simp [checkedSubU64, hle]

/-- Witness for C5 at `amount = 1000`, `swapFeeRatio = 3_000_000`
(fee `⌊3·10^6 · 1000 / 10^9⌋ = 3`). -/
theorem fee_le_amount_witness :
    (1000 : Nat) < U64_MOD ∧ (3000000 : Nat) < PONE ∧
    value_from_shares 3000000 1000 PONE = Except.ok (3000000 * 1000 / PONE) ∧
    3000000 * 1000 / PONE ≤ 1000 := by
  have h := fee_le_amount 1000 3000000 (by norm_num [U64_MOD]) (by norm_num [PONE])
  exact ⟨by norm_num [U64_MOD], by norm_num [PONE], h.1, h.2.1⟩

/-- The liquidity-guard threshold of exact-in mode:
`value_from_shares(MAX_IN_RATIO, balance_in, PONE)` is exactly
`⌊balance_in / 2⌋` for every `u64` balance. -/
lemma max_in_amount_eq {b : Nat} (hb : b < U64_MOD) :
    value_from_shares maxInRatio b PONE = Except.ok (b / 2) := by
  have hq : maxInRatio * b / PONE = b / 2 := by
    have hP : PONE = maxInRatio * 2 := by norm_num [PONE, maxInRatio]
    rw [hP, Nat.mul_div_mul_left b 2 (by norm_num [maxInRatio, PONE])]
  have h := proportional_ok_of_lt (a := maxInRatio) (n := b)
    (Nat.pos_iff_ne_zero.mp pone_pos)
    (mul_lt_u128 (by norm_num [maxInRatio, PONE, U64_MOD]) hb)
    (by rw [hq]; exact lt_of_le_of_lt (Nat.div_le_self b 2) hb)
  rw [value_from_shares, h, hq]

/-- On a successful `swap_exact_amount_in`, the returned guard flag equals
`token_in_amount > ⌊token_in_balance / 2⌋`, for any curve function. -/
lemma swap_exact_amount_in_flag (cOut : CurveFn)
    (tib tiw tob tow amt swap_fee_ratio : Nat) (r : Nat × Nat × Nat × Bool)
    (hb : tib < U64_MOD)
    (h : swap_exact_amount_in cOut tib tiw tob tow amt swap_fee_ratio =
      Except.ok r) :
    r.2.2.2 = decide (amt > tib / 2) := by
  unfold swap_exact_amount_in at h
  rw [max_in_amount_eq hb] at h
  dsimp only at h
  rcases hfee : value_from_shares swap_fee_ratio amt PONE with e | fee <;>
    rw [hfee] at h <;> dsimp only at h
  · cases h
  rcases hsub : checkedSubU64 amt fee with _ | adj <;>
    rw [hsub] at h <;> dsimp only at h
  · cases h
  rcases hout : cOut tib tiw tob tow adj 0 with e | out <;>
    rw [hout] at h <;> dsimp only at h
  · cases h
  cases h
  rfl

/-- `quote` written through `orchestrate`. -/
lemma quote_eq (cOut cIn : CurveFn) (amm : OneIntroAmm) (qp : QuoteParams) :
    quote cOut cIn amm qp =
      match orchestrate cOut cIn amm qp with
      | Except.error e => Except.error e
      | Except.ok r =>
        Except.ok (mkQuote r qp.input_mint amm.state.pool_swap_fee_ratio) := by
  obtain ⟨amt, im, om, mode⟩ := qp
  unfold quote orchestrate
  cases mode <;> dsimp only
  · rcases hs : swap_exact_amount_in cOut (selectLegs amm.state im).1
      (selectLegs amm.state im).2.2.1 (selectLegs amm.state im).2.1
      (selectLegs amm.state im).2.2.2 amt amm.state.pool_swap_fee_ratio with
      e | ⟨a, b, c, d⟩ <;> rfl
  · rcases hs : swap_exact_amount_out cIn (selectLegs amm.state im).1
      (selectLegs amm.state im).2.2.1 (selectLegs amm.state im).2.1
      (selectLegs amm.state im).2.2.2 amt amm.state.pool_swap_fee_ratio with
      e | ⟨a, b, c, d⟩ <;> rfl

/-- Inversion for a successful `quote`: the orchestrator succeeded and the
quote's fields are built from its result tuple. -/
lemma quote_ok_inv (cOut cIn : CurveFn) (amm : OneIntroAmm) (qp : QuoteParams)
    (q : Quote) (hq : quote cOut cIn amm qp = Except.ok q) :
    ∃ r, orchestrate cOut cIn amm qp = Except.ok r ∧
      q = mkQuote r qp.input_mint amm.state.pool_swap_fee_ratio := by
  rw [quote_eq] at hq
  rcases hr : orchestrate cOut cIn amm qp with e | r <;> rw [hr] at hq
  · cases hq
  · cases hq
    exact ⟨r, rfl, rfl⟩

/-- Claim C6: on every successful exact-in quote, for any curve function, the
`not_enough_liquidity` flag is set exactly when the requested amount exceeds
`⌊balance_in / 2⌋` (the guard threshold `proportional(MAX_IN_RATIO,
balance_in, PONE)`); the guard itself never rejects the quote. -/
theorem exact_in_guard_flag (cOut cIn : CurveFn) (amm : OneIntroAmm)
    (qp : QuoteParams) (q : Quote)
    (hb : (selectLegs amm.state qp.input_mint).1 < U64_MOD)
    (hmode : qp.swap_mode = SwapMode.ExactIn)
    (hq : quote cOut cIn amm qp = Except.ok q) :
    q.not_enough_liquidity =
      decide (qp.amount > (selectLegs amm.state qp.input_mint).1 / 2) := by
  obtain ⟨r, hr, hq'⟩ := quote_ok_inv cOut cIn amm qp q hq
  subst hq'
  unfold orchestrate at hr
  rw [hmode] at hr
  dsimp only at hr
  exact swap_exact_amount_in_flag cOut _ _ _ _ _ _ r hb hr

/-- Witness for C6 on the spec's concrete case `balanceIn = 1_000_000`: a
requested `600_000` yields a successful quote with the flag set, `400_000` a
successful quote with the flag clear. -/
theorem exact_in_guard_flag_witness :
    ((selectLegs (mkAmm 1 2 1000000 0).state 1).1 < U64_MOD ∧
      (true : Bool) =
        decide ((600000 : Nat) > (selectLegs (mkAmm 1 2 1000000 0).state 1).1 / 2)) ∧
    (false : Bool) =
      decide ((400000 : Nat) > (selectLegs (mkAmm 1 2 1000000 0).state 1).1 / 2) := by
  refine ⟨⟨by norm_num [selectLegs, mkAmm, mkPool, U64_MOD], ?_⟩, ?_⟩
  · exact exact_in_guard_flag (constCurve 990) (constCurve 990)
      (mkAmm 1 2 1000000 0)
      { amount := 600000, input_mint := 1, output_mint := 2,
        swap_mode := SwapMode.ExactIn }
      (mkQuote (600000, 990, 0, true) 1 0)
      (by norm_num [selectLegs, mkAmm, mkPool, U64_MOD]) rfl rfl
  · exact exact_in_guard_flag (constCurve 990) (constCurve 990)
      (mkAmm 1 2 1000000 0)
      { amount := 400000, input_mint := 1, output_mint := 2,
        swap_mode := SwapMode.ExactIn }
      (mkQuote (400000, 990, 0, false) 1 0)
      (by norm_num [selectLegs, mkAmm, mkPool, U64_MOD]) rfl rfl

/-- The wrapped `* 100` and the `as i64` cast are the identity for fee ratios
at most `PONE`, so `fee_pct` is the exact rational `ratio * 100 / 10^9`. -/
lemma feePctVal_eq {swap_fee_ratio : Nat} (h : swap_fee_ratio ≤ PONE) :
    feePctVal swap_fee_ratio = (swap_fee_ratio : ℚ) * 100 / (PONE : ℚ) := by
  have h0 : swap_fee_ratio ≤ 1000000000 := by simpa [PONE] using h
  have h1 : swap_fee_ratio * 100 < 2 ^ 63 := by omega
  have h2 : swap_fee_ratio * 100 < U64_MOD := by
    have hlt : (2 : Nat) ^ 63 < U64_MOD := by norm_num [U64_MOD]
    omega
  unfold feePctVal decimalNew i64FromU64
  rw [Nat.mod_eq_of_lt h2, Nat.mod_eq_of_lt h2, if_pos h1]
  push_cast
  norm_num [PONE]

/-- Claim C2 (amended): on every successful quote, the reported `fee_pct`
equals `swapFeeRatio * 100 / 10^9` — i.e. one hundred times the fraction
`swapFeeRatio / PONE` — for any fee ratio at most `PONE`. -/
theorem fee_pct_is_ratio_times_100 (cOut cIn : CurveFn) (amm : OneIntroAmm)
    (qp : QuoteParams) (q : Quote)
    (hr : amm.state.pool_swap_fee_ratio ≤ PONE)
    (hq : quote cOut cIn amm qp = Except.ok q) :
    q.fee_pct = (amm.state.pool_swap_fee_ratio : ℚ) * 100 / (PONE : ℚ) := by
  obtain ⟨r, _, hq'⟩ := quote_ok_inv cOut cIn amm qp q hq
  subst hq'
  exact feePctVal_eq hr

/-- Witness for C2 (amended) at `swapFeeRatio = 3_000_000`. -/
theorem fee_pct_is_ratio_times_100_witness :
    (mkAmm 1 2 1000000 3000000).state.pool_swap_fee_ratio ≤ PONE ∧
    feePctVal 3000000 =
      ((mkAmm 1 2 1000000 3000000).state.pool_swap_fee_ratio : ℚ) * 100 /
        (PONE : ℚ) := by
  refine ⟨by norm_num [mkAmm, mkPool, PONE], ?_⟩
  exact fee_pct_is_ratio_times_100 (constCurve 990) (constCurve 990)
    (mkAmm 1 2 1000000 3000000)
    { amount := 1000, input_mint := 1, output_mint := 2,
      swap_mode := SwapMode.ExactIn }
    (mkQuote (1000, 990, 3, false) 1 3000000)
    (by norm_num [mkAmm, mkPool, PONE]) rfl

/-- Counterexample to claim C2 as stated: with `swapFeeRatio = 3_000_000` a
successful quote reports `fee_pct = 0.3` (`= 3_000_000 · 100 / 10^9`), not the
claimed `swapFeeRatio / PONE = 0.003`. -/
theorem fee_pct_counterexample :
    quote (constCurve 990) (constCurve 990) (mkAmm 1 2 1000000 3000000)
      { amount := 1000, input_mint := 1, output_mint := 2,
        swap_mode := SwapMode.ExactIn } =
      Except.ok (mkQuote (1000, 990, 3, false) 1 3000000) ∧
    feePctVal 3000000 ≠ (3000000 : ℚ) / (PONE : ℚ) := by
  refine ⟨rfl, ?_⟩
  norm_num [feePctVal, decimalNew, i64FromU64, U64_MOD, PONE]

/-- Claim C1 (the code, evaluated at the failing input): an exact-in quote
with `amount = 0` does not fail validation — the curve engine is reached (here
with the curve value `0`, which is what the `f64` formula yields for a zero
input on a positive balance) and a successful zero-output quote is returned,
because the error constructed at `one_intro_amm.rs` lines 78–80 is discarded
rather than returned, as is the too-small-output error of lines 116–118. -/
theorem quote_zero_amount_not_rejected :
    quote (constCurve 0) (constCurve 0) (mkAmm 1 2 1000000 3000000)
      { amount := 0, input_mint := 1, output_mint := 2,
        swap_mode := SwapMode.ExactIn } =
      Except.ok (mkQuote (0, 0, 0, false) 1 3000000) := rfl

/-- Claim C7: if the account map lacks the pool's own key, `update` fails with
the state-not-found error and leaves the stored snapshot exactly as it was
(for any deserializer and any prior state). -/
theorem update_missing_key_atomic {α : Type}
    (deser : α → Except AmmError PoolState) (amm : OneIntroAmm)
    (account_map : Nat → Option α) (h : account_map amm.key = none) :
    update deser amm account_map =
      (Except.error AmmError.poolStateNotFound, amm) := by
  unfold update
  rw [h]

/-- Witness for C7: an empty account map on a concrete pool. -/
theorem update_missing_key_witness :
    ((fun _ => none : Nat → Option Unit) (mkAmm 1 2 1000000 0).key = none) ∧
    update (fun (_ : Unit) => Except.ok (mkPool 3 4 5 6)) (mkAmm 1 2 1000000 0)
        (fun _ => none) =
      (Except.error AmmError.poolStateNotFound, mkAmm 1 2 1000000 0) :=
  ⟨rfl, update_missing_key_atomic (fun _ => Except.ok (mkPool 3 4 5 6))
    (mkAmm 1 2 1000000 0) (fun _ => none) rfl⟩

/-- Filtering a mapped list is mapping the filtered list. -/
lemma filter_map_mint (p : Nat → Bool) (l : List TokenRecord) :
    (l.map TokenRecord.mint_key).filter p =
      (l.filter (fun r => p r.mint_key)).map TokenRecord.mint_key := by
  induction l with
  | nil => rfl
  | cons a l ih =>
    by_cases hp : p a.mint_key = true <;>
      simp [List.filter_cons, List.map_cons, hp, ih]

/-- Claim C9: `get_reserve_mints` returns exactly the mints of the records
whose mint is not the all-zero placeholder, in array order (the source's
map-then-filter equals the spec's filter-then-map). -/
theorem get_reserve_mints_spec (amm : OneIntroAmm) :
    get_reserve_mints amm = specActiveLegMints amm := by
  unfold get_reserve_mints specActiveLegMints
  exact filter_map_mint _ _

/-- Counterexample to claim C10 as stated: quoting with an input mint (7)
matching neither leg of a pool with leg mints 1 and 2 does not produce the
same result as quoting with leg 1's mint (2): the `fee_mint` field reports the
requested mint, 7 in one case and 2 in the other. -/
theorem unknown_mint_counterexample :
    quote (constCurve 990) (constCurve 990) (mkAmm 1 2 1000000 0)
      { amount := 1000, input_mint := 7, output_mint := 2,
        swap_mode := SwapMode.ExactIn } ≠
    quote (constCurve 990) (constCurve 990) (mkAmm 1 2 1000000 0)
      { amount := 1000, input_mint := 2, output_mint := 1,
        swap_mode := SwapMode.ExactIn } := by
  intro h
  have h2 : (some 7 : Option Nat) = some 2 :=
    congrArg (fun r => (Except.toOption r).map Quote.fee_mint) h
  exact absurd (Option.some.inj h2) (by norm_num)

/-- Claim C10 (amended): for an input mint matching neither leg, `quote` does
not fail with any mint-not-found error; it computes with leg 1 as the input
leg and leg 0 as the output leg, and (when the two legs carry distinct mints)
its result is exactly the result for input mint = leg 1's mint with the
`fee_mint` field replaced by the requested mint. -/
theorem unknown_mint_behaves_as_leg1 (cOut cIn : CurveFn) (amm : OneIntroAmm)
    (qp : QuoteParams)
    (h0 : qp.input_mint ≠ (amm.state.pool_token_array 0).mint_key)
    (h1 : qp.input_mint ≠ (amm.state.pool_token_array 1).mint_key)
    (h10 : (amm.state.pool_token_array 1).mint_key ≠
      (amm.state.pool_token_array 0).mint_key) :
    quote cOut cIn amm qp =
      Except.map (fun q => { q with fee_mint := qp.input_mint })
        (quote cOut cIn amm
          { qp with input_mint := (amm.state.pool_token_array 1).mint_key }) := by
  have hsel : selectLegs amm.state ((amm.state.pool_token_array 1).mint_key) =
      selectLegs amm.state qp.input_mint := by
    unfold selectLegs
    rw [if_neg h0, if_neg h10]
  have horch : orchestrate cOut cIn amm
      { qp with input_mint := (amm.state.pool_token_array 1).mint_key } =
      orchestrate cOut cIn amm qp := by
    unfold orchestrate
    dsimp only
    rw [hsel]
  rw [quote_eq, quote_eq, horch]
  rcases hr : orchestrate cOut cIn amm qp with e | r <;> rfl

/-- Witness for C10 (amended) on a concrete pool with leg mints 1 and 2 and
the unknown input mint 7. -/
theorem unknown_mint_behaves_as_leg1_witness :
    ((7 : Nat) ≠ ((mkAmm 1 2 1000000 0).state.pool_token_array 0).mint_key) ∧
    quote (constCurve 990) (constCurve 990) (mkAmm 1 2 1000000 0)
      { amount := 1000, input_mint := 7, output_mint := 2,
        swap_mode := SwapMode.ExactIn } =
      Except.map (fun q => { q with fee_mint := 7 })
        (quote (constCurve 990) (constCurve 990) (mkAmm 1 2 1000000 0)
          { amount := 1000,
            input_mint := ((mkAmm 1 2 1000000 0).state.pool_token_array 1).mint_key,
            output_mint := 2, swap_mode := SwapMode.ExactIn }) := by
  refine ⟨by norm_num [mkAmm, mkPool], ?_⟩
  exact unknown_mint_behaves_as_leg1 (constCurve 990) (constCurve 990)
    (mkAmm 1 2 1000000 0)
    { amount := 1000, input_mint := 7, output_mint := 2,
      swap_mode := SwapMode.ExactIn }
    (by norm_num [mkAmm, mkPool]) (by norm_num [mkAmm, mkPool])
    (by norm_num [mkAmm, mkPool])

end OneIntro

